import Mathlib

/-!
Shallow embedding of the snapshot-computation core of the Gold telegram bot
(`data_sources.py`): the data model (time-indexed OHLCV series), the four
numeric helpers (`_latest_price`, `_pct_change_over_hours`,
`_last_hour_volume_sum`, `_safe_history`), the snapshot builder
`get_gold_snapshot` and the renderer `format_snapshot` with its numeric
formatters `_fmt_money`, `_fmt_int` and the inner `pct`.

Conventions of the embedding:
* Timestamps are integers (seconds); `pd.Timedelta(hours=h)` is `h * 3600`.
* Prices and volumes are rationals; a pandas `NaN` cell is `Option.none`
  (so `dropna` is a `filterMap` and `fillna(0)` is `Option.getD 0`).
* A pandas `DataFrame` is a row list together with two flags recording
  whether the `Close` / `Volume` columns are present (the empty frame
  produced by the exception handler of `_safe_history` has no columns).
* The upstream index is guaranteed strictly increasing and UTC-normalized;
  under that invariant the label slice `closes.loc[:cutoff]` selects exactly
  the rows whose timestamp is `≤ cutoff`, which is how it is embedded.
* A Python `float` that may be `NaN` is `Option ℚ` with `none` playing the
  role of `NaN`; a leading underscore of a Python name is dropped where it
  appears (Lean reserves leading-underscore identifiers).
-/

/-- One row of a history frame: timestamp index, `Close`, `Volume`. -/
structure Sample where
  ts : Int
  close : Option ℚ
  volume : Option ℚ
  deriving Repr, DecidableEq

/-- A pandas DataFrame as used by the snapshot code: its rows plus the
presence of the `Close` and `Volume` columns. -/
structure DataFrame where
  hasClose : Bool
  hasVolume : Bool
  rows : List Sample
  deriving Repr, DecidableEq

/-- `df.empty` of pandas: no rows. -/
def DataFrame.emptyb (df : DataFrame) : Bool :=
  df.rows.isEmpty

/-- The frame `pd.DataFrame()` returned by the `except` branch of
`_safe_history`: no rows and no columns. -/
def emptyFrame : DataFrame :=
  { hasClose := false, hasVolume := false, rows := [] }

/-- `df["Close"].dropna()` as a list of (timestamp, close) pairs. -/
def dropnaClose (rows : List Sample) : List (Int × ℚ) :=
  rows.filterMap fun s => s.close.map fun c => (s.ts, c)

/-- `_safe_history`: a retrieval attempt either yields a frame or raises
(`none`); raising is caught and degraded to the empty frame. -/
def safe_history (fetch : Option DataFrame) : DataFrame :=
  match fetch with
  | none => emptyFrame
  | some df => df

/-- `_latest_price`: `NaN` when the frame is empty or has no `Close`
column or all closes are `NaN`; otherwise the last entry of the dropna'd
close series. -/
def latest_price (df : DataFrame) : Option ℚ :=
  if df.emptyb || !df.hasClose then none
  else
    (dropnaClose df.rows).getLast?.map Prod.snd

/-- `_pct_change_over_hours`: 24h change from the coarse series.
`closes.loc[:cutoff]` is embedded as the rows with timestamp `≤ cutoff`
(exact for the strictly increasing index guaranteed upstream). -/
def pct_change_over_hours (df : DataFrame) (hours : Int) : Option ℚ :=
  if df.emptyb || !df.hasClose then none
  else
    match (dropnaClose df.rows).getLast? with
    | none => none
    | some (last_time, last) =>
      let cutoff := last_time - hours * 3600
      let past := (dropnaClose df.rows).filter fun p => p.1 ≤ cutoff
      let base :=
        match past.getLast? with
        | none => ((dropnaClose df.rows).head?.map Prod.snd).getD 0
        | some (_, b) => b
      if base = 0 then none
      else some ((last - base) / base * 100)

/-- `_last_hour_volume_sum`: sum of `Volume.fillna(0)` over rows with
`now_utc - 1h < ts ≤ now_utc`; `0.0` for an empty frame or one without a
`Volume` column. -/
def last_hour_volume_sum (df : DataFrame) (now_utc : Int) : ℚ :=
  if df.emptyb || !df.hasVolume then 0
  else
    ((df.rows.filter fun s =>
        decide (now_utc - 3600 < s.ts) && decide (s.ts ≤ now_utc)).map
      fun s => s.volume.getD 0).sum

example :
    latest_price ⟨true, true, [⟨0, some 3, none⟩, ⟨1, none, none⟩]⟩ =
      some 3 := by
  norm_num [latest_price, dropnaClose, DataFrame.emptyb]

example :
    pct_change_over_hours
      ⟨true, true, [⟨0, some 2000, none⟩, ⟨100800, some 2050, none⟩]⟩ 24 =
      some (5/2) := by
  norm_num [pct_change_over_hours, dropnaClose, DataFrame.emptyb,
    List.filterMap_cons, List.find?]

example :
    last_hour_volume_sum
      ⟨true, true, [⟨-4200, none, some 10⟩, ⟨-1800, none, some 20⟩,
                    ⟨-300, none, some 30⟩]⟩ 0 = 50 := by
  norm_num [last_hour_volume_sum, DataFrame.emptyb]

/-- Rounding used by CPython when formatting a float with `.2f` / `,` /
`+.2f`: round to nearest, ties to even. -/
def roundHalfEven (q : ℚ) : Int :=
  let f := ⌊q⌋
  let frac := q - f
  if frac < 1/2 then f
  else if 1/2 < frac then f + 1
  else if f % 2 = 0 then f else f + 1

/-- Left-pad a two-digit decimal field. -/
def pad2 (n : Nat) : String :=
  if n < 10 then "0" ++ toString n else toString n

/-- Insert a comma after every three characters of a reversed digit list
(the `,` option of the Python format spec). -/
def commasAux : List Char → List Char
  | [] => []
  | [a] => [a]
  | [a, b] => [a, b]
  | [a, b, c] => [a, b, c]
  | a :: b :: c :: d :: rest => a :: b :: c :: ',' :: commasAux (d :: rest)

/-- A natural number rendered with thousands separators. -/
def commaGroup (n : Nat) : String :=
  String.mk (commasAux (toString n).data.reverse).reverse

/-- `_fmt_money`, i.e. `f"{x:,.2f}"` guarded by `try/except`.
For a non-NaN float this renders sign, comma-grouped integer part and two
rounded decimals. For NaN (`none`) CPython's float formatting returns the
string "nan" WITHOUT raising, so the `except` branch that returns "n/a" is
never reached on any float; it only fires for non-float arguments, which
the snapshot builder never produces. -/
def fmt_money (x : Option ℚ) : String :=
  match x with
  | none => "nan"
  | some q =>
    let cents := (roundHalfEven (|q| * 100)).toNat
    (if q < 0 then "-" else "") ++
      commaGroup (cents / 100) ++ "." ++ pad2 (cents % 100)

/-- `_fmt_int`, i.e. `f"{int(round(x)):,}"` guarded by `try/except`.
The snapshot builder only feeds it non-NaN volume sums, on which the
`except` branch (returning "0") is unreachable; `round` is ties-to-even. -/
def fmt_int (x : ℚ) : String :=
  let r := roundHalfEven x
  if r < 0 then "-" ++ commaGroup r.natAbs else commaGroup r.toNat

/-- The inner `pct` helper of `format_snapshot`: "n/a" when the value is
None or NaN (`pd.isna`), otherwise `f"{p:+.2f}%"` (explicit sign, two
decimals, no thousands separator). -/
def pct (p : Option ℚ) : String :=
  match p with
  | none => "n/a"
  | some q =>
    let cents := (roundHalfEven (|q| * 100)).toNat
    (if q < 0 then "-" else "+") ++
      toString (cents / 100) ++ "." ++ pad2 (cents % 100) ++ "%"

/-- `TICKERS["spot"]`. -/
def TICKERS_spot : String := "XAUUSD=X"

/-- `TICKERS["etf"]`. -/
def TICKERS_etf : String := "GLD"

/-- `TICKERS["futures"]`: primary contract first, then the micro contract. -/
def TICKERS_futures : List String := ["GC=F", "MGC=F"]

/-- The `"spot"` sub-record of the snapshot dictionary. -/
structure SpotInfo where
  ticker : String
  price : Option ℚ
  change_24h_pct : Option ℚ
  deriving Repr, DecidableEq

/-- The `"etf"` sub-record of the snapshot dictionary. -/
structure EtfInfo where
  ticker : String
  price : Option ℚ
  change_24h_pct : Option ℚ
  last_hour_volume : ℚ
  deriving Repr, DecidableEq

/-- The `"futures"` sub-record of the snapshot dictionary. -/
structure FuturesInfo where
  tickers : List String
  price_main : Option ℚ
  change_24h_pct : Option ℚ
  last_hour_volume_sum : ℚ
  deriving Repr, DecidableEq

/-- The `"totals"` sub-record of the snapshot dictionary. -/
structure Totals where
  last_hour_volume_all : ℚ
  deriving Repr, DecidableEq

/-- The dictionary returned by `get_gold_snapshot`. -/
structure Snapshot where
  as_of_local : String
  spot : SpotInfo
  etf : EtfInfo
  futures : FuturesInfo
  totals : Totals
  deriving Repr, DecidableEq

/-- The environment `get_gold_snapshot` reads: the local clock string, the
UTC reference timestamp `now_utc_ts` used for the volume windows, and the
result of each `_safe_history` call (already degraded to `emptyFrame` on
failure). `fut_gc_1m`/`fut_mgc_1m` are the two elements of `fut_1m_list`;
`fut_main_1m` is the separate re-fetch of the primary contract's minute
data performed when computing `futures_price`. -/
structure FetchInput where
  now_local : String
  now_utc_ts : Int
  spot_1h : DataFrame
  etf_1h : DataFrame
  fut_main_1h : DataFrame
  spot_1m : DataFrame
  etf_1m : DataFrame
  fut_gc_1m : DataFrame
  fut_mgc_1m : DataFrame
  fut_main_1m : DataFrame
  deriving Repr, DecidableEq

/-- `get_gold_snapshot`, as a function of the fetched frames. -/
def get_gold_snapshot (inp : FetchInput) : Snapshot :=
  let spot_price :=
    latest_price (if inp.spot_1m.emptyb then inp.spot_1h else inp.spot_1m)
  let etf_price :=
    latest_price (if inp.etf_1m.emptyb then inp.etf_1h else inp.etf_1m)
  let futures_price :=
    latest_price
      (if inp.fut_main_1m.emptyb then inp.fut_main_1h else inp.fut_main_1m)
  let spot_change := pct_change_over_hours inp.spot_1h 24
  let etf_change := pct_change_over_hours inp.etf_1h 24
  let futures_change := pct_change_over_hours inp.fut_main_1h 24
  let fut_volumes := last_hour_volume_sum inp.fut_gc_1m inp.now_utc_ts +
    last_hour_volume_sum inp.fut_mgc_1m inp.now_utc_ts
  let etf_volume := last_hour_volume_sum inp.etf_1m inp.now_utc_ts
  let total_volume := fut_volumes + etf_volume
  { as_of_local := inp.now_local
    spot := ⟨TICKERS_spot, spot_price, spot_change⟩
    etf := ⟨TICKERS_etf, etf_price, etf_change, etf_volume⟩
    futures := ⟨TICKERS_futures, futures_price, futures_change, fut_volumes⟩
    totals := ⟨total_volume⟩ }

/-- `format_snapshot`: the fixed multi-section report, joined with
newlines. -/
def format_snapshot (snapshot : Snapshot) : String :=
  let tickers_str := String.intercalate ", "
    (snapshot.futures.tickers.map fun t => "`" ++ t ++ "`")
  String.intercalate "\n"
    [ "📊 *Золото — сводка*"
    , "⏱ Обновлено: " ++ snapshot.as_of_local
    , ""
    , "🪙 *Spot (XAU/USD)* `" ++ snapshot.spot.ticker ++ "`"
    , "  Цена: $" ++ fmt_money snapshot.spot.price ++ "  |  24ч: " ++
        pct snapshot.spot.change_24h_pct
    , ""
    , "🏦 *Фондовый рынок (ETF)* `" ++ snapshot.etf.ticker ++ "`"
    , "  Цена: $" ++ fmt_money snapshot.etf.price ++ "  |  24ч: " ++
        pct snapshot.etf.change_24h_pct
    , "  Объём за последний час: " ++ fmt_int snapshot.etf.last_hour_volume
    , ""
    , "🛢 *Фьючерсы (COMEX)* " ++ tickers_str
    , "  Цена (главный контракт): $" ++ fmt_money snapshot.futures.price_main
        ++ "  |  24ч: " ++ pct snapshot.futures.change_24h_pct
    , "  Суммарный объём фьючерсов за последний час: " ++
        fmt_int snapshot.futures.last_hour_volume_sum
    , ""
    , "🧮 *Итого объём (ETF + фьючерсы) за последний час:* " ++
        fmt_int snapshot.totals.last_hour_volume_all
    , ""
    , "_Источник данных: Yahoo Finance (через yfinance). Объёмы спота обычно недоступны, поэтому в итог включены ETF и фьючерсы._"
    ]

/-! ### Spec-side definitions

These re-state, in the spec's own words, the quantities the claims talk
about; the theorems below compare them with the code-side definitions. -/

/-- Spec wording: "the close of the last sample with a non-missing close,
ignoring trailing missing-close samples". -/
def lastValidClose (rows : List Sample) : Option ℚ :=
  (rows.reverse.find? fun s => s.close.isSome).bind fun s => s.close

/-- Spec wording: "the earliest non-missing close in the entire series". -/
def firstValidClose (rows : List Sample) : Option ℚ :=
  (rows.find? fun s => s.close.isSome).bind fun s => s.close

/-- The latest-price policy exactly as the claim words it: the last
non-missing close of the fine series; if the fine series is entirely empty
OR HAS NO VALID CLOSE, the last non-missing close of the coarse series;
`none` when both are empty. -/
def claimLatestPrice (fine coarse : DataFrame) : Option ℚ :=
  match lastValidClose fine.rows with
  | some c => some c
  | none => lastValidClose coarse.rows

/-- The 24h-change algorithm exactly as the claim words it: `last` is the
most recent non-missing close (timestamp `last_time`), `cutoff` is
`last_time - hours`; `base` is the most recent non-missing close at or
before `cutoff`, or the earliest non-missing close when none exists; the
result is `(last - base) / base * 100`, unavailable exactly when the
series has no valid close or `base` is zero or missing. -/
def pctSpec (df : DataFrame) (hours : Int) : Option ℚ :=
  match df.rows.reverse.find? (fun s => s.close.isSome) with
  | none => none
  | some slast =>
    match slast.close with
    | none => none
    | some last =>
      let cutoff := slast.ts - hours * 3600
      let base? :=
        match (df.rows.filter fun s => s.close.isSome).reverse.find?
            (fun s => decide (s.ts ≤ cutoff)) with
        | some sb => sb.close
        | none => firstValidClose df.rows
      match base? with
      | none => none
      | some base =>
        if base = 0 then none else some ((last - base) / base * 100)

/-- The trailing-hour volume exactly as the claim words it: the sum of the
volumes (missing counted as zero) of exactly the samples with
`now - 1h < ts ≤ now`. -/
def claimHourVolume (rows : List Sample) (now_utc : Int) : ℚ :=
  ((rows.filter fun s => decide (now_utc - 3600 < s.ts ∧ s.ts ≤ now_utc)).map
    fun s => s.volume.getD 0).sum

/-! ### Bridging lemmas between the pandas-style code and the spec's
"last/first non-missing close" vocabulary. -/

/-- The extraction underlying `dropna` on the close column. -/
def closeEntry (s : Sample) : Int × ℚ :=
  (s.ts, s.close.getD 0)

theorem dropnaClose_eq_filter_map (rows : List Sample) :
    dropnaClose rows =
      (rows.filter fun s => s.close.isSome).map closeEntry := by
  induction rows with
  | nil => rfl
  | cons s t ih =>
    cases hc : s.close <;>
      simp [dropnaClose, List.filterMap_cons, hc, closeEntry,
        List.filter_cons] at ih ⊢ <;>
      exact ih

theorem findSome?_map_snd (m : List Sample) :
    (m.findSome? fun s => s.close.map fun c => (s.ts, c)).map Prod.snd =
      (m.find? fun s => s.close.isSome).bind fun s => s.close := by
  induction m with
  | nil => rfl
  | cons s t ih =>
    cases hc : s.close <;>
      simp [List.findSome?_cons, List.find?_cons, hc, ih]

theorem getLast_dropnaClose (rows : List Sample) :
    ((dropnaClose rows).getLast?).map Prod.snd = lastValidClose rows := by
  rw [dropnaClose, List.filterMap_getLast?, lastValidClose,
    findSome?_map_snd]

theorem head_dropnaClose (rows : List Sample) :
    ((dropnaClose rows).head?).map Prod.snd = firstValidClose rows := by
  rw [dropnaClose, List.filterMap_head?, firstValidClose, findSome?_map_snd]

theorem getLast_dropnaClose_entry (rows : List Sample) :
    (dropnaClose rows).getLast? =
      (rows.reverse.find? fun s => s.close.isSome).map closeEntry := by
  rw [dropnaClose_eq_filter_map, List.getLast?_map, List.filter_getLast?]

theorem head_dropnaClose_entry (rows : List Sample) :
    (dropnaClose rows).head? =
      (rows.find? fun s => s.close.isSome).map closeEntry := by
  rw [dropnaClose_eq_filter_map, List.head?_map, List.filter_head?]

/-- `_latest_price` implements the spec's "last non-missing close" for any
frame that has a close column. -/
theorem latest_price_eq_lastValidClose (df : DataFrame)
    (h : df.hasClose = true) :
    latest_price df = lastValidClose df.rows := by
  rcases df with ⟨hc, hv, rows⟩
  subst h
  cases rows with
  | nil => rfl
  | cons s t =>
    simp only [latest_price, DataFrame.emptyb, List.isEmpty_cons,
      Bool.false_or, Bool.not_true, if_neg Bool.false_ne_true]
    exact getLast_dropnaClose (s :: t)

/-- `_pct_change_over_hours` implements the claim's description of the
24-hour change verbatim, for any frame that has a close column. -/
theorem pct_change_eq_pctSpec (df : DataFrame) (h : df.hasClose = true)
    (hours : Int) :
    pct_change_over_hours df hours = pctSpec df hours := by
  rcases df with ⟨hc, hv, rows⟩
  subst h
  cases rows with
  | nil => rfl
  | cons s0 t0 =>
    set rows := s0 :: t0 with hrows
    simp only [pct_change_over_hours, pctSpec, DataFrame.emptyb, hrows,
      List.isEmpty_cons, Bool.not_true, Bool.false_or,
      if_neg Bool.false_ne_true]
    rw [getLast_dropnaClose_entry]
    cases hfind : rows.reverse.find? (fun s => s.close.isSome) with
    | none => rfl
    | some slast =>
      have hclS := List.find?_some hfind
      obtain ⟨c, hc⟩ := Option.isSome_iff_exists.mp hclS
      simp only [Option.map_some', closeEntry, hc, Option.getD_some]
      have hpast :
          ((dropnaClose rows).filter
              fun p => decide (p.1 ≤ slast.ts - hours * 3600)).getLast? =
            ((rows.filter fun s => s.close.isSome).reverse.find?
              fun s => decide (s.ts ≤ slast.ts - hours * 3600)).map
                closeEntry := by
        rw [dropnaClose_eq_filter_map, List.filter_map, List.getLast?_map,
          List.filter_getLast?]
        rfl
      rw [hpast]
      cases hbase : (rows.filter fun s => s.close.isSome).reverse.find?
          (fun s => decide (s.ts ≤ slast.ts - hours * 3600)) with
      | some sb =>
        have hmem : sb ∈ rows.filter fun s => s.close.isSome := by
          have := List.mem_of_find?_eq_some hbase
          exact List.mem_reverse.mp this
        have hsb : sb.close.isSome := (List.mem_filter.mp hmem).2
        obtain ⟨b, hb⟩ := Option.isSome_iff_exists.mp hsb
        simp [closeEntry, hb]
      | none =>
        have hmemS : slast ∈ rows := by
          have := List.mem_of_find?_eq_some hfind
          exact List.mem_reverse.mp this
        have hfirst : (rows.find? fun s => s.close.isSome).isSome := by
          rw [List.find?_isSome]
          exact ⟨slast, hmemS, hclS⟩
        obtain ⟨sfirst, hsf⟩ := Option.isSome_iff_exists.mp hfirst
        have hclF := List.find?_some hsf
        obtain ⟨c0, hc0⟩ := Option.isSome_iff_exists.mp hclF
        rw [head_dropnaClose_entry, hsf]
        simp [firstValidClose, hsf, closeEntry, hc0]

/-- Multiply every close of a series by a constant `k` (volumes and
timestamps untouched). -/
def scaleCloses (k : ℚ) (df : DataFrame) : DataFrame :=
  { df with rows := df.rows.map fun s => { s with close := s.close.map (k * ·) } }

theorem dropnaClose_scale (k : ℚ) (rows : List Sample) :
    dropnaClose (rows.map fun s => { s with close := s.close.map (k * ·) }) =
      (dropnaClose rows).map fun p => (p.1, k * p.2) := by
  induction rows with
  | nil => rfl
  | cons s t ih =>
    cases hc : s.close <;>
      simp [dropnaClose, List.filterMap_cons, hc] at ih ⊢ <;>
      exact ih

theorem pct_change_scale (df : DataFrame) (k : ℚ) (hours : Int)
    (hk : k ≠ 0) :
    pct_change_over_hours (scaleCloses k df) hours =
      pct_change_over_hours df hours := by
  rcases df with ⟨hc, hv, rows⟩
  have hmapEmpty :
      (rows.map fun s =>
        { s with close := s.close.map (k * ·) }).isEmpty = rows.isEmpty := by
    cases rows <;> rfl
  simp only [pct_change_over_hours, scaleCloses, DataFrame.emptyb, hmapEmpty]
  cases hcond : (rows.isEmpty || !hc) with
  | true => rfl
  | false =>
    simp only [Bool.false_eq_true, if_false, dropnaClose_scale,
      List.getLast?_map]
    cases hlast : (dropnaClose rows).getLast? with
    | none => rfl
    | some pl =>
      rcases pl with ⟨t, c⟩
      simp only [Option.map_some']
      have hfilter :
          (((dropnaClose rows).map fun p => (p.1, k * p.2)).filter
              fun p => decide (p.1 ≤ t - hours * 3600)) =
            ((dropnaClose rows).filter
              fun p => decide (p.1 ≤ t - hours * 3600)).map
                fun p => (p.1, k * p.2) := by
        rw [List.filter_map]
        rfl
      rw [hfilter, List.getLast?_map]
      cases hpast : ((dropnaClose rows).filter
          fun p => decide (p.1 ≤ t - hours * 3600)).getLast? with
      | some pb =>
        rcases pb with ⟨tb, b⟩
        simp only [Option.map_some']
        rcases eq_or_ne b 0 with hb | hb
        · simp [hb]
        · rw [if_neg (mul_ne_zero hk hb), if_neg hb,
            ← mul_sub, mul_div_mul_left _ _ hk]
      | none =>
        simp only [Option.map_none']
        cases hhead : (dropnaClose rows).head? with
        | none =>
          rw [List.head?_eq_none_iff] at hhead
          rw [hhead] at hlast
          simp at hlast
        | some p0 =>
          rcases p0 with ⟨t0, c0⟩
          simp only [List.head?_map, hhead, Option.map_some',
            Option.getD_some]
          rcases eq_or_ne c0 0 with hb | hb
          · simp [hb]
          · rw [if_neg (mul_ne_zero hk hb), if_neg hb,
              ← mul_sub, mul_div_mul_left _ _ hk]

theorem lastValidClose_ne_none (rows : List Sample)
    (h : ∃ s ∈ rows, s.close.isSome = true) :
    lastValidClose rows ≠ none := by
  obtain ⟨s, hmem, hs⟩ := h
  have hfind : (rows.reverse.find? fun s => s.close.isSome).isSome := by
    rw [List.find?_isSome]
    exact ⟨s, List.mem_reverse.mpr hmem, hs⟩
  obtain ⟨sl, hsl⟩ := Option.isSome_iff_exists.mp hfind
  have hclS := List.find?_some hsl
  obtain ⟨c, hc⟩ := Option.isSome_iff_exists.mp hclS
  simp [lastValidClose, hsl, hc]

theorem latest_price_ne_none (df : DataFrame) (h : df.hasClose = true)
    (hex : ∃ s ∈ df.rows, s.close.isSome = true) :
    latest_price df ≠ none := by
  rw [latest_price_eq_lastValidClose df h]
  exact lastValidClose_ne_none df.rows hex

theorem pct_change_ne_none (df : DataFrame) (h : df.hasClose = true)
    (hex : ∃ s ∈ df.rows, s.close.isSome = true)
    (hnz : ∀ s ∈ df.rows, ∀ c : ℚ, s.close = some c → c ≠ 0) :
    pct_change_over_hours df 24 ≠ none := by
  rw [pct_change_eq_pctSpec df h]
  obtain ⟨s, hmem, hs⟩ := hex
  have hfindR : (df.rows.reverse.find? fun s => s.close.isSome).isSome := by
    rw [List.find?_isSome]
    exact ⟨s, List.mem_reverse.mpr hmem, hs⟩
  obtain ⟨sl, hsl⟩ := Option.isSome_iff_exists.mp hfindR
  have hclS := List.find?_some hsl
  obtain ⟨c, hc⟩ := Option.isSome_iff_exists.mp hclS
  simp only [pctSpec, hsl, hc]
  cases hbase : (df.rows.filter fun s => s.close.isSome).reverse.find?
      (fun s => decide (s.ts ≤ sl.ts - 24 * 3600)) with
  | some sb =>
    have hmemb : sb ∈ df.rows.filter fun s => s.close.isSome :=
      List.mem_reverse.mp (List.mem_of_find?_eq_some hbase)
    have hsb : sb.close.isSome = true := (List.mem_filter.mp hmemb).2
    obtain ⟨b, hb⟩ := Option.isSome_iff_exists.mp hsb
    have hbne : b ≠ 0 := hnz sb (List.mem_filter.mp hmemb).1 b hb
    simp [hbase, hb, hbne]
  | none =>
    have hfindF : (df.rows.find? fun s => s.close.isSome).isSome := by
      rw [List.find?_isSome]
      exact ⟨s, hmem, hs⟩
    obtain ⟨sf, hsf⟩ := Option.isSome_iff_exists.mp hfindF
    have hclF := List.find?_some hsf
    obtain ⟨c0, hc0⟩ := Option.isSome_iff_exists.mp hclF
    have hc0ne : c0 ≠ 0 := hnz sf (List.mem_of_find?_eq_some hsf) c0 hc0
    simp [hbase, firstValidClose, hsf, hc0, hc0ne]

/-- Reported price of one instrument in the builder: fine frame unless it
is empty, described through the spec's `lastValidClose`. -/
theorem reported_price_eq (fine coarse : DataFrame)
    (h1 : fine.hasClose = true) (h2 : coarse.hasClose = true) :
    latest_price (if fine.emptyb then coarse else fine) =
      if fine.emptyb then lastValidClose coarse.rows
        else lastValidClose fine.rows := by
  cases h : fine.emptyb <;>
    simp [h, latest_price_eq_lastValidClose, h1, h2]

/-- A fine frame that has a row but no valid close. -/
def fineNoValid : DataFrame := ⟨true, true, [⟨0, none, none⟩]⟩

/-- A coarse frame with a single valid close of 5. -/
def coarseValid : DataFrame := ⟨true, true, [⟨0, some 5, none⟩]⟩

/-- Builder input whose etf fine series has a row but no valid close,
while its etf coarse series has a valid close; all other frames failed. -/
def inputC1 : FetchInput :=
  ⟨"2024-01-01 00:00:00 EET", 3600, emptyFrame, coarseValid, emptyFrame,
    emptyFrame, fineNoValid, emptyFrame, emptyFrame, emptyFrame⟩

/-- A frame where every close is present. -/
def frameValid : DataFrame :=
  ⟨true, true, [⟨0, some 5, none⟩, ⟨3600, some 6, some 2⟩]⟩

/-- Builder input all of whose retrievals returned `frameValid`. -/
def inputValid : FetchInput :=
  ⟨"2024-01-01 00:00:00 EET", 3600, frameValid, frameValid, frameValid,
    frameValid, frameValid, frameValid, frameValid, frameValid⟩

/-- The coarse series of the spec's end-to-end scenario: closes
2000 at t-28h and 2050 at t. -/
def coarseScenario : DataFrame :=
  ⟨true, true, [⟨0, some 2000, none⟩, ⟨100800, some 2050, none⟩]⟩

/-- The fine series of the spec's end-to-end volume scenario:
volumes 10 at now-70m, 20 at now-30m, 30 at now-5m (now = 0). -/
def fineScenario : DataFrame :=
  ⟨true, true, [⟨-4200, none, some 10⟩, ⟨-1800, none, some 20⟩,
                ⟨-300, none, some 30⟩]⟩

/-- C1, counterexample: the claim says a fine series "entirely empty or
with no valid close" falls back to the coarse series, but the code only
falls back when the fine frame has no rows. On a builder input whose etf
fine frame has one row with a missing close and whose etf coarse frame
holds a valid close of 5, the claimed policy yields 5 while the built
snapshot reports the price as unavailable. -/
theorem C1_latest_price_counterexample :
    (get_gold_snapshot inputC1).etf.price = none ∧
    claimLatestPrice inputC1.etf_1m inputC1.etf_1h = some 5 ∧
    inputC1.etf_1m.emptyb = false := by
  decide

/-- C1 (amended): for every snapshot build, each instrument's reported
price is the last non-missing close of the FINE series when the fine
frame has at least one row (even if all its closes are missing, in which
case the price is unavailable with no coarse fallback), and the last
non-missing close of the COARSE series only when the fine frame has no
rows; when both are empty the price is unavailable (`lastValidClose []`
is `none`). -/
theorem C1_latest_price_amended (inp : FetchInput)
    (hs1 : inp.spot_1m.hasClose = true) (hs2 : inp.spot_1h.hasClose = true)
    (he1 : inp.etf_1m.hasClose = true) (he2 : inp.etf_1h.hasClose = true)
    (hf1 : inp.fut_main_1m.hasClose = true)
    (hf2 : inp.fut_main_1h.hasClose = true) :
    (get_gold_snapshot inp).spot.price =
      (if inp.spot_1m.emptyb then lastValidClose inp.spot_1h.rows
        else lastValidClose inp.spot_1m.rows) ∧
    (get_gold_snapshot inp).etf.price =
      (if inp.etf_1m.emptyb then lastValidClose inp.etf_1h.rows
        else lastValidClose inp.etf_1m.rows) ∧
    (get_gold_snapshot inp).futures.price_main =
      (if inp.fut_main_1m.emptyb then lastValidClose inp.fut_main_1h.rows
        else lastValidClose inp.fut_main_1m.rows) :=
  ⟨reported_price_eq inp.spot_1m inp.spot_1h hs1 hs2,
    reported_price_eq inp.etf_1m inp.etf_1h he1 he2,
    reported_price_eq inp.fut_main_1m inp.fut_main_1h hf1 hf2⟩

/-- C1 witness: the amended theorem applied to a concrete input with all
frames valid. -/
theorem C1_latest_price_amended_witness :
    inputValid.spot_1m.hasClose = true ∧
    inputValid.spot_1h.hasClose = true ∧
    inputValid.etf_1m.hasClose = true ∧
    inputValid.etf_1h.hasClose = true ∧
    inputValid.fut_main_1m.hasClose = true ∧
    inputValid.fut_main_1h.hasClose = true ∧
    ((get_gold_snapshot inputValid).spot.price =
      (if inputValid.spot_1m.emptyb
        then lastValidClose inputValid.spot_1h.rows
        else lastValidClose inputValid.spot_1m.rows) ∧
    (get_gold_snapshot inputValid).etf.price =
      (if inputValid.etf_1m.emptyb
        then lastValidClose inputValid.etf_1h.rows
        else lastValidClose inputValid.etf_1m.rows) ∧
    (get_gold_snapshot inputValid).futures.price_main =
      (if inputValid.fut_main_1m.emptyb
        then lastValidClose inputValid.fut_main_1h.rows
        else lastValidClose inputValid.fut_main_1m.rows)) :=
  ⟨rfl, rfl, rfl, rfl, rfl, rfl,
    C1_latest_price_amended inputValid rfl rfl rfl rfl rfl rfl⟩

/-- C2, code bug: the spec (and the `except` branch of `_fmt_money`
itself) intends the unavailable marker to render as the fixed placeholder
"n/a", but CPython formats the float NaN marker as the string "nan"
without raising, so `f"{x:,.2f}"` succeeds and the "n/a" branch is never
taken: an unavailable monetary value renders as "nan", not as the
placeholder. (The inner `pct` helper, which tests `pd.isna` explicitly,
does produce "n/a".) -/
theorem C2_fmt_money_unavailable :
    fmt_money none = "nan" ∧ fmt_money none ≠ "n/a" ∧ pct none = "n/a" :=
  ⟨rfl, by decide, rfl⟩

/-- C3: for every coarse frame with a close column, the computed 24-hour
change equals the claim's algorithm verbatim — `last` the most recent
non-missing close, `cutoff` its timestamp minus 24h, `base` the most
recent non-missing close at or before `cutoff` or else the earliest
non-missing close, result `(last-base)/base*100`, unavailable exactly
when the series has no valid close or the base is zero. -/
theorem C3_pct_change_spec (df : DataFrame) (h : df.hasClose = true) :
    pct_change_over_hours df 24 = pctSpec df 24 :=
  pct_change_eq_pctSpec df h 24

/-- C3 witness: the theorem applied to the spec's example coarse series. -/
theorem C3_pct_change_spec_witness :
    coarseScenario.hasClose = true ∧
    pct_change_over_hours coarseScenario 24 = pctSpec coarseScenario 24 :=
  ⟨rfl, C3_pct_change_spec coarseScenario rfl⟩

/-- C4: for every fine frame with a volume column the trailing one-hour
volume is the sum of the volumes (missing counted as zero) of exactly the
samples with `now-1h < ts ≤ now`; it is zero, not unavailable, for an
empty frame; and on the spec's scenario `[10 @ now-70m, 20 @ now-30m,
30 @ now-5m]` it is 50. -/
theorem C4_hour_volume :
    (∀ (df : DataFrame) (now_utc : Int), df.hasVolume = true →
        last_hour_volume_sum df now_utc = claimHourVolume df.rows now_utc) ∧
    (∀ (hc hv : Bool) (now_utc : Int),
        last_hour_volume_sum ⟨hc, hv, []⟩ now_utc = 0) ∧
    (∀ now_utc : Int,
        last_hour_volume_sum
          ⟨true, true,
            [⟨now_utc - 4200, none, some 10⟩, ⟨now_utc - 1800, none, some 20⟩,
             ⟨now_utc - 300, none, some 30⟩]⟩ now_utc = 50) := by
  refine ⟨?_, ?_, ?_⟩
  · intro df now h
    rcases df with ⟨hc, hv, rows⟩
    cases h
    have hpred :
        (fun s : Sample => decide (now - 3600 < s.ts ∧ s.ts ≤ now)) =
          fun s : Sample =>
            decide (now - 3600 < s.ts) && decide (s.ts ≤ now) := by
      funext s
      exact Bool.decide_and _ _
    cases rows with
    | nil => rfl
    | cons s t =>
      simp only [last_hour_volume_sum, claimHourVolume, DataFrame.emptyb,
        List.isEmpty_cons, Bool.not_true, Bool.or_false, hpred]
      rfl
  · intro hc hv now
    rfl
  · intro now
    have h1 : decide (now - 3600 < now - 4200) = false := by
      simp
    have h2 : decide (now - 3600 < now - 1800) = true := by
      simp
    have h3 : decide (now - 1800 ≤ now) = true := by
      simp
    have h4 : decide (now - 3600 < now - 300) = true := by
      simp
    have h5 : decide (now - 300 ≤ now) = true := by
      simp
    simp only [last_hour_volume_sum, DataFrame.emptyb, List.isEmpty_cons,
      Bool.not_true, Bool.or_false, List.filter_cons, h1, h2, h3, h4, h5,
      Bool.and_self, Bool.false_and, Bool.true_and, List.filter_nil,
      if_true, if_false, List.map_cons, List.map_nil, List.sum_cons,
      List.sum_nil, Option.getD_some]
    norm_num

/-- C4 witness: the volume theorem applied to the spec's scenario frame. -/
theorem C4_hour_volume_witness :
    fineScenario.hasVolume = true ∧
    last_hour_volume_sum fineScenario 0 =
      claimHourVolume fineScenario.rows 0 :=
  ⟨rfl, C4_hour_volume.1 fineScenario 0 rfl⟩

theorem frameValid_nz :
    ∀ s ∈ frameValid.rows, ∀ c : ℚ, s.close = some c → c ≠ 0 := by
  intro s hs c hc
  rcases List.mem_cons.mp hs with rfl | hs
  · obtain rfl := Option.some.inj hc
    norm_num
  rcases List.mem_cons.mp hs with rfl | hs
  · obtain rfl := Option.some.inj hc
    norm_num
  · exact absurd hs (List.not_mem_nil s)

theorem frameValid_has_close :
    ∃ s ∈ frameValid.rows, s.close.isSome = true :=
  ⟨⟨0, some 5, none⟩, List.mem_cons_self _ _, rfl⟩

/-- C5: in every built snapshot the futures price and 24h change are
computed from the primary contract's frames only (so they are invariant
under any change to the micro contract's data), while the futures volume
is the sum of the trailing-hour volumes of both contracts; if the micro
contract's series is empty the group volume is exactly the primary
contract's trailing-hour volume, and a primary series with a valid close
(and, for the change, no zero closes) yields a non-unavailable price and
change. -/
theorem C5_futures_group (inp : FetchInput) :
    ((get_gold_snapshot inp).futures.price_main =
        latest_price (if inp.fut_main_1m.emptyb then inp.fut_main_1h
          else inp.fut_main_1m) ∧
      (get_gold_snapshot inp).futures.change_24h_pct =
        pct_change_over_hours inp.fut_main_1h 24 ∧
      ∀ d : DataFrame,
        (get_gold_snapshot
            { inp with fut_mgc_1m := d }).futures.price_main =
          (get_gold_snapshot inp).futures.price_main ∧
        (get_gold_snapshot
            { inp with fut_mgc_1m := d }).futures.change_24h_pct =
          (get_gold_snapshot inp).futures.change_24h_pct) ∧
    (get_gold_snapshot inp).futures.last_hour_volume_sum =
      last_hour_volume_sum inp.fut_gc_1m inp.now_utc_ts +
        last_hour_volume_sum inp.fut_mgc_1m inp.now_utc_ts ∧
    (inp.fut_mgc_1m.rows = [] →
      (get_gold_snapshot inp).futures.last_hour_volume_sum =
        last_hour_volume_sum inp.fut_gc_1m inp.now_utc_ts) ∧
    (inp.fut_main_1m.emptyb = false → inp.fut_main_1m.hasClose = true →
      (∃ s ∈ inp.fut_main_1m.rows, s.close.isSome = true) →
      (get_gold_snapshot inp).futures.price_main ≠ none) ∧
    (inp.fut_main_1h.hasClose = true →
      (∃ s ∈ inp.fut_main_1h.rows, s.close.isSome = true) →
      (∀ s ∈ inp.fut_main_1h.rows, ∀ c : ℚ, s.close = some c → c ≠ 0) →
      (get_gold_snapshot inp).futures.change_24h_pct ≠ none) := by
  refine ⟨⟨rfl, rfl, fun d => ⟨rfl, rfl⟩⟩, rfl, ?_, ?_, ?_⟩
  · intro h
    show last_hour_volume_sum inp.fut_gc_1m inp.now_utc_ts +
        last_hour_volume_sum inp.fut_mgc_1m inp.now_utc_ts =
      last_hour_volume_sum inp.fut_gc_1m inp.now_utc_ts
    rw [show last_hour_volume_sum inp.fut_mgc_1m inp.now_utc_ts = 0 by
      simp [last_hour_volume_sum, DataFrame.emptyb, h]]
    exact add_zero _
  · intro h1 h2 h3
    have hform : (get_gold_snapshot inp).futures.price_main =
        latest_price inp.fut_main_1m := by
      show latest_price (if inp.fut_main_1m.emptyb then inp.fut_main_1h
        else inp.fut_main_1m) = _
      rw [h1]
      simp
    rw [hform]
    exact latest_price_ne_none inp.fut_main_1m h2 h3
  · intro h1 h2 h3
    exact pct_change_ne_none inp.fut_main_1h h1 h2 h3

/-- C5 witness: the theorem applied at concrete inputs — a fully valid
input discharges the price/change hypotheses, and the input whose micro
contract frame is empty exercises the group-volume conjunct. -/
theorem C5_futures_group_witness :
    inputValid.fut_main_1m.emptyb = false ∧
    inputValid.fut_main_1m.hasClose = true ∧
    inputValid.fut_main_1h.hasClose = true ∧
    (get_gold_snapshot inputValid).futures.price_main ≠ none ∧
    (get_gold_snapshot inputValid).futures.change_24h_pct ≠ none ∧
    inputC1.fut_mgc_1m.rows = [] ∧
    (get_gold_snapshot inputC1).futures.last_hour_volume_sum =
      last_hour_volume_sum inputC1.fut_gc_1m inputC1.now_utc_ts :=
  ⟨rfl, rfl, rfl,
    (C5_futures_group inputValid).2.2.2.1 rfl rfl frameValid_has_close,
    (C5_futures_group inputValid).2.2.2.2 rfl frameValid_has_close
      frameValid_nz,
    rfl,
    (C5_futures_group inputC1).2.2.1 rfl⟩

/-- C6: in every built snapshot the totals figure is the etf trailing-hour
volume plus the summed futures trailing-hour volume, and no volume figure
of the snapshot depends on the spot instrument's data (replacing both
spot frames arbitrarily leaves every volume figure unchanged — the spot
sub-record carries no volume field at all). -/
theorem C6_totals (inp : FetchInput) :
    (get_gold_snapshot inp).totals.last_hour_volume_all =
      (get_gold_snapshot inp).etf.last_hour_volume +
        (get_gold_snapshot inp).futures.last_hour_volume_sum ∧
    ∀ d1 d2 : DataFrame,
      (get_gold_snapshot
          { inp with spot_1h := d1, spot_1m := d2 }).etf.last_hour_volume =
        (get_gold_snapshot inp).etf.last_hour_volume ∧
      (get_gold_snapshot
          { inp with
            spot_1h := d1
            spot_1m := d2 }).futures.last_hour_volume_sum =
        (get_gold_snapshot inp).futures.last_hour_volume_sum ∧
      (get_gold_snapshot
          { inp with
            spot_1h := d1
            spot_1m := d2 }).totals.last_hour_volume_all =
        (get_gold_snapshot inp).totals.last_hour_volume_all := by
  refine ⟨?_, fun d1 d2 => ⟨rfl, rfl, rfl⟩⟩
  show last_hour_volume_sum inp.fut_gc_1m inp.now_utc_ts +
      last_hour_volume_sum inp.fut_mgc_1m inp.now_utc_ts +
      last_hour_volume_sum inp.etf_1m inp.now_utc_ts =
    last_hour_volume_sum inp.etf_1m inp.now_utc_ts +
      (last_hour_volume_sum inp.fut_gc_1m inp.now_utc_ts +
        last_hour_volume_sum inp.fut_mgc_1m inp.now_utc_ts)
  exact add_comm _ _

/-- C7: a failed retrieval is degraded by `_safe_history` to the empty
frame, and degrading any one instrument's frames to empty makes exactly
that instrument's price and change unavailable and its volume zero,
while every other sub-record, the timestamp — and hence construction of
the snapshot as a whole — are unaffected. For the etf the totals then
reduce to the futures contribution alone; for the spot (which carries no
volume) even the totals are unchanged; for the futures group the price,
change and summed volume degrade and the totals reduce to the etf
contribution alone. -/
theorem C7_failure_isolation :
    safe_history none = emptyFrame ∧
    ∀ inp : FetchInput,
      ((get_gold_snapshot
        { inp with
          etf_1h := emptyFrame
          etf_1m := emptyFrame }).etf.price = none ∧
      (get_gold_snapshot
        { inp with
          etf_1h := emptyFrame
          etf_1m := emptyFrame }).etf.change_24h_pct = none ∧
      (get_gold_snapshot
        { inp with
          etf_1h := emptyFrame
          etf_1m := emptyFrame }).etf.last_hour_volume = 0 ∧
      (get_gold_snapshot
        { inp with etf_1h := emptyFrame, etf_1m := emptyFrame }).spot =
        (get_gold_snapshot inp).spot ∧
      (get_gold_snapshot
        { inp with etf_1h := emptyFrame, etf_1m := emptyFrame }).futures =
        (get_gold_snapshot inp).futures ∧
      (get_gold_snapshot
        { inp with
          etf_1h := emptyFrame
          etf_1m := emptyFrame }).as_of_local =
        (get_gold_snapshot inp).as_of_local ∧
      (get_gold_snapshot
        { inp with
          etf_1h := emptyFrame
          etf_1m := emptyFrame }).totals.last_hour_volume_all =
        (get_gold_snapshot inp).futures.last_hour_volume_sum) ∧
      ((get_gold_snapshot
        { inp with
          spot_1h := emptyFrame
          spot_1m := emptyFrame }).spot.price = none ∧
      (get_gold_snapshot
        { inp with
          spot_1h := emptyFrame
          spot_1m := emptyFrame }).spot.change_24h_pct = none ∧
      (get_gold_snapshot
        { inp with spot_1h := emptyFrame, spot_1m := emptyFrame }).etf =
        (get_gold_snapshot inp).etf ∧
      (get_gold_snapshot
        { inp with spot_1h := emptyFrame, spot_1m := emptyFrame }).futures =
        (get_gold_snapshot inp).futures ∧
      (get_gold_snapshot
        { inp with
          spot_1h := emptyFrame
          spot_1m := emptyFrame }).as_of_local =
        (get_gold_snapshot inp).as_of_local ∧
      (get_gold_snapshot
        { inp with spot_1h := emptyFrame, spot_1m := emptyFrame }).totals =
        (get_gold_snapshot inp).totals) ∧
      ((get_gold_snapshot
        { inp with
          fut_main_1h := emptyFrame
          fut_gc_1m := emptyFrame
          fut_mgc_1m := emptyFrame
          fut_main_1m := emptyFrame }).futures.price_main = none ∧
      (get_gold_snapshot
        { inp with
          fut_main_1h := emptyFrame
          fut_gc_1m := emptyFrame
          fut_mgc_1m := emptyFrame
          fut_main_1m := emptyFrame }).futures.change_24h_pct = none ∧
      (get_gold_snapshot
        { inp with
          fut_main_1h := emptyFrame
          fut_gc_1m := emptyFrame
          fut_mgc_1m := emptyFrame
          fut_main_1m := emptyFrame }).futures.last_hour_volume_sum = 0 ∧
      (get_gold_snapshot
        { inp with
          fut_main_1h := emptyFrame
          fut_gc_1m := emptyFrame
          fut_mgc_1m := emptyFrame
          fut_main_1m := emptyFrame }).spot =
        (get_gold_snapshot inp).spot ∧
      (get_gold_snapshot
        { inp with
          fut_main_1h := emptyFrame
          fut_gc_1m := emptyFrame
          fut_mgc_1m := emptyFrame
          fut_main_1m := emptyFrame }).etf =
        (get_gold_snapshot inp).etf ∧
      (get_gold_snapshot
        { inp with
          fut_main_1h := emptyFrame
          fut_gc_1m := emptyFrame
          fut_mgc_1m := emptyFrame
          fut_main_1m := emptyFrame }).as_of_local =
        (get_gold_snapshot inp).as_of_local ∧
      (get_gold_snapshot
        { inp with
          fut_main_1h := emptyFrame
          fut_gc_1m := emptyFrame
          fut_mgc_1m := emptyFrame
          fut_main_1m := emptyFrame }).totals.last_hour_volume_all =
        (get_gold_snapshot inp).etf.last_hour_volume) := by
  refine ⟨rfl, fun inp =>
    ⟨⟨rfl, rfl, rfl, rfl, rfl, rfl, ?_⟩,
     ⟨rfl, rfl, rfl, rfl, rfl, rfl⟩,
     ⟨rfl, rfl, ?_, rfl, rfl, rfl, ?_⟩⟩⟩
  · exact add_zero _
  · exact add_zero 0
  · show (0 : ℚ) + 0 + last_hour_volume_sum inp.etf_1m inp.now_utc_ts =
      last_hour_volume_sum inp.etf_1m inp.now_utc_ts
    rw [add_zero, zero_add]

/-- C8: the 24-hour percentage change is scale-invariant — multiplying
every close of a series by a positive constant `k` leaves the computed
change unchanged. -/
theorem C8_pct_scale_invariant (df : DataFrame) (k : ℚ) (hk : 0 < k) :
    pct_change_over_hours (scaleCloses k df) 24 =
      pct_change_over_hours df 24 :=
  pct_change_scale df k 24 (ne_of_gt hk)

/-- C8 witness: the theorem applied with `k = 2` to the example coarse
series. -/
theorem C8_pct_scale_invariant_witness :
    (0 : ℚ) < 2 ∧
    pct_change_over_hours (scaleCloses 2 coarseScenario) 24 =
      pct_change_over_hours coarseScenario 24 :=
  ⟨two_pos, C8_pct_scale_invariant coarseScenario 2 two_pos⟩

/-- C9: the snapshot formatter is a pure total function of the snapshot
value — it is defined (yields a string, never an exception) on every
snapshot, and formatting the same value twice gives byte-identical
text. -/
theorem C9_format_deterministic :
    ∀ s : Snapshot, (∃ t : String, format_snapshot s = t) ∧
      format_snapshot s = format_snapshot s :=
  fun s => ⟨⟨format_snapshot s, rfl⟩, rfl⟩

/-- C10: every snapshot the builder can produce has the fixed record
shape — the constant tickers in the fixed sub-records — and the formatter
(which reads every field of that shape) is defined on it. -/
theorem C10_snapshot_shape :
    ∀ inp : FetchInput,
      (get_gold_snapshot inp).spot.ticker = TICKERS_spot ∧
      (get_gold_snapshot inp).etf.ticker = TICKERS_etf ∧
      (get_gold_snapshot inp).futures.tickers = TICKERS_futures ∧
      ∃ t : String, format_snapshot (get_gold_snapshot inp) = t :=
  fun inp => ⟨rfl, rfl, rfl, format_snapshot (get_gold_snapshot inp), rfl⟩
